import Mathlib

/-!
Shallow embedding of the booking lifecycle and availability engine of the
zen-backend repository (src/models/Booking.js and src/routes/bookings.js).
Times are modelled as integer epoch milliseconds; the document database is
modelled as explicit Booking values and lists of them; each route handler
becomes a pure function from the loaded booking (and the request data and
the clock) to the persisted booking together with an optional error
message, mirroring the check-then-act structure of the handlers: every
rejection path returns before any field is written, and the single save at
the end persists the mutated document.
-/

namespace Zen

/-- Millis in one minute. -/
def minuteMs : Int := 60 * 1000

/-- Millis in one day. -/
def dayMs : Int := 24 * 60 * 60 * 1000

/-- Booking status enumeration of the Booking schema; the value pending is
not in the schema enum but is accepted by the route validators and queried
for by the availability queries, so it is representable here. -/
inductive Status where
  | pending
  | confirmed
  | inProgress
  | completed
  | cancelled
  | rescheduled
  | noShow
deriving DecidableEq, Repr

/-- Clinic location enumeration of the Booking schema. -/
inductive Location where
  | jubileeHills
  | kokapet
  | kondapur
deriving DecidableEq, Repr

/-- The Booking document, restricted to the persisted fields the booking
lifecycle and availability logic read or write. Dates are epoch millis. -/
structure Booking where
  user : Nat
  location : Location
  appointmentDate : Int
  appointmentTime : String
  status : Status
  totalAmount : Nat
  bookingReference : String
  notes : Option String
  cancellationReason : Option String
  cancelledAt : Option Int
  rescheduledFromDate : Option Int
  rescheduledFromTime : Option String
  rescheduledAt : Option Int
  rescheduleCount : Nat
  noShowMarkedAt : Option Int
  rating : Option Nat
  feedback : Option String
  feedbackDate : Option Int
  checkedIn : Bool
  checkInTime : Option Int
  checkoutOTP : Option String
  checkedOut : Bool
  checkOutTime : Option Int
  adminCheckout : Option String
  canCheckOut : Bool
  checkOutEligibleTime : Option Int
deriving DecidableEq, Repr

/-- Outcome of a route handler on a loaded booking: the booking as it is
persisted after the request, and the error message when the request was
rejected (none means success). Rejection paths return before any write, so
on error the persisted booking is the loaded one unchanged. -/
structure Outcome where
  booking : Booking
  error : Option String
deriving DecidableEq, Repr

/-- Digit character for a value below ten, as produced by number to string
conversion. -/
def digitChar (d : Nat) : Char := Char.ofNat (48 + d)

/-- Fuel-indexed decimal digit list of a positive number, most significant
first; embeds the JS Number toString rendering. -/
def decimalChars : Nat → Nat → List Char
  | 0, _ => []
  | fuel + 1, n => if n = 0 then [] else decimalChars fuel (n / 10) ++ [digitChar (n % 10)]

/-- Decimal string of a natural number, the embedding of JS toString on a
nonnegative integer. -/
def decimalStr (n : Nat) : String :=
  if n = 0 then "0" else String.mk (decimalChars n n)

/-- padStart(2, "0") of the JS source: left-pad a string with zeros to
length two. -/
def pad2 (s : String) : String :=
  if 2 ≤ s.length then s else String.mk (List.replicate (2 - s.length) '0') ++ s

theorem decimalChars_zero (fuel : Nat) : decimalChars fuel 0 = [] := by
  cases fuel <;> simp [decimalChars]

theorem decimalChars_length (fuel n : Nat) (hn : 0 < n) (hf : n ≤ fuel) :
    (decimalChars fuel n).length = Nat.log 10 n + 1 := by
  induction fuel generalizing n with
  | zero => omega
  | succ fuel ih =>
    have hne : n ≠ 0 := Nat.pos_iff_ne_zero.mp hn
    rw [decimalChars, if_neg hne]
    by_cases h10 : n < 10
    · have : n / 10 = 0 := Nat.div_eq_of_lt h10
      rw [this, decimalChars_zero]
      have : Nat.log 10 n = 0 := Nat.log_eq_zero_iff.mpr (Or.inl h10)
      simp [this]
    · have hdivpos : 0 < n / 10 := Nat.div_pos (Nat.le_of_not_lt h10) (by norm_num)
      have hdivle : n / 10 ≤ fuel := by
        have : n / 10 < n := Nat.div_lt_self hn (by norm_num)
        omega
      have hlogpos : 0 < Nat.log 10 n := Nat.log_pos (by norm_num) (Nat.le_of_not_lt h10)
      have hlogdiv : Nat.log 10 (n / 10) = Nat.log 10 n - 1 := Nat.log_div_base 10 n
      rw [List.length_append, ih (n / 10) hdivpos hdivle, hlogdiv]
      simp
      omega

theorem decimalStr_length (n : Nat) (hn : 0 < n) :
    (decimalStr n).length = Nat.log 10 n + 1 := by
  rw [decimalStr, if_neg (Nat.pos_iff_ne_zero.mp hn)]
  show (decimalChars n n).length = _
  exact decimalChars_length n n hn le_rfl

theorem digitChar_isDigit (d : Nat) (hd : d < 10) : (digitChar d).isDigit = true := by
  interval_cases d <;> decide

theorem decimalChars_digits (fuel n : Nat) :
    ∀ c ∈ decimalChars fuel n, c.isDigit = true := by
  induction fuel generalizing n with
  | zero => intro c hc; simp [decimalChars] at hc
  | succ fuel ih =>
    intro c hc
    rw [decimalChars] at hc
    by_cases hne : n = 0
    · simp [hne] at hc
    · rw [if_neg hne] at hc
      rcases List.mem_append.mp hc with h | h
      · exact ih (n / 10) c h
      · rcases List.mem_singleton.mp h with rfl
        exact digitChar_isDigit _ (Nat.mod_lt _ (by norm_num))

theorem decimalStr_digits (n : Nat) : ∀ c ∈ (decimalStr n).data, c.isDigit = true := by
  rw [decimalStr]
  by_cases hne : n = 0
  · subst hne; intro c hc; simp at hc; subst hc; decide
  · rw [if_neg hne]
    exact decimalChars_digits n n

/-- Date part of the booking reference: full year, then month and day each
left-padded to two digits, as built in the pre-save hook of Booking.js and
in the create-booking handler (month is already 1-based here, the source
adds 1 to getMonth). -/
def referenceDateStr (year month day : Nat) : String :=
  decimalStr year ++ pad2 (decimalStr month) ++ pad2 (decimalStr day)

/-- Booking reference generator: ZEN, then YYYYMMDD, then 1000 plus the
random draw, where rand models floor of Math.random() times 9000 and so
ranges over 0..8999. -/
def generateBookingReference (year month day rand : Nat) : String :=
  "ZEN" ++ referenceDateStr year month day ++ decimalStr (1000 + rand)

/-- The fixed daily slot catalog: one slot per hour, hour 10 through 19,
rendered as HH:00 with padStart, as generated in the availability
handlers. -/
def timeSlots : List String :=
  (List.range 10).map (fun i => pad2 (decimalStr (10 + i)) ++ ":00")

/-- Embedding of the JS split on a single separator character: break the
character list at every occurrence of the separator. -/
def splitOnChar (sep : Char) : List Char → List (List Char)
  | [] => [[]]
  | c :: rest =>
    if c = sep then [] :: splitOnChar sep rest
    else
      match splitOnChar sep rest with
      | [] => [[c]]
      | g :: gs => (c :: g) :: gs

/-- Embedding of parseInt on an all-digit string: fold up the decimal
digits. -/
def digitsToNat (cs : List Char) : Nat :=
  cs.foldl (fun n c => n * 10 + (c.toNat - 48)) 0

/-- Embedding of parseInt(slot.split(":")[0]). -/
def parseHour (s : String) : Nat :=
  digitsToNat ((splitOnChar ':' s.data).headD [])

/-- Embedding of parsing an HH:MM string into minutes after midnight. -/
def parseTimeMins (s : String) : Nat :=
  match splitOnChar ':' s.data with
  | [h, m] => digitsToNat h * 60 + digitsToNat m
  | _ => 0

/-- Truncation of an epoch-millis instant to the start of its UTC day, the
effect of toISOString().split("T")[0] when the result is reparsed as a
date. -/
def dateOnly (t : Int) : Int := t - t % dayMs

/-- The appointment datetime the check-in handler computes from the stored
date and the HH:MM time string. -/
def appointmentDateTime (b : Booking) : Int :=
  dateOnly b.appointmentDate + minuteMs * parseTimeMins b.appointmentTime

/-- Per-slot availability record returned by the day-availability
handler. -/
structure SlotInfo where
  time : String
  isAvailable : Bool
  isBooked : Bool
  isPastTime : Bool
deriving DecidableEq, Repr

/-- Status filter of the availability queries: the Mongo query keeps
status in the list pending, confirmed, in-progress. -/
def bookableStatus : Status → Bool
  | .pending => true
  | .confirmed => true
  | .inProgress => true
  | _ => false

/-- Day-range filter of the availability query: appointmentDate at or
after the day start and strictly before the final millisecond of the day
(the query uses gte setHours(0,0,0,0) and lt setHours(23,59,59,999)). -/
def onDay (dayStart : Int) (b : Booking) : Bool :=
  decide (dayStart ≤ b.appointmentDate) && decide (b.appointmentDate < dayStart + (dayMs - 1))

/-- The existing-bookings query of the day-availability handler: bookings
on the requested day at the requested location whose status is pending,
confirmed or in-progress. -/
def availabilityQuery (loc : Location) (dayStart : Int) (bookings : List Booking) : List Booking :=
  bookings.filter (fun b => onDay dayStart b && decide (b.location = loc) && bookableStatus b.status)

/-- Per-slot computation of the day-availability handler: booked when some
queried booking has appointmentTime equal to the slot; past when the query
date is today and the slot hour is at most the current hour plus one;
available when neither. -/
def slotDetail (existing : List Booking) (isToday : Bool) (currentHour : Nat) (slot : String) :
    SlotInfo :=
  let isBooked := existing.any (fun b => decide (b.appointmentTime = slot))
  let isPastTime := isToday && decide (parseHour slot ≤ currentHour + 1)
  { time := slot, isAvailable := !isBooked && !isPastTime, isBooked := isBooked,
    isPastTime := isPastTime }

/-- The day-availability computation of GET /availability/:date, as the
list of per-slot records (isToday and currentHour are the values the
handler reads from the clock). -/
def getDayAvailability (loc : Location) (dayStart : Int) (isToday : Bool) (currentHour : Nat)
    (bookings : List Booking) : List SlotInfo :=
  timeSlots.map (slotDetail (availabilityQuery loc dayStart bookings) isToday currentHour)

/-- Instance method cancelBooking of the Booking model. -/
def Booking.cancelBooking (b : Booking) (reason : String) (now : Int) : Booking :=
  { b with status := .cancelled, cancellationReason := some reason, cancelledAt := some now }

/-- Instance method rescheduleBooking of the Booking model: throws when
rescheduleCount is already at least one, otherwise snapshots the prior
date and time, overwrites them, sets status rescheduled, stamps
rescheduledAt and increments rescheduleCount. -/
def Booking.rescheduleBooking (b : Booking) (newDate : Int) (newTime : String) (now : Int) :
    Except String Booking :=
  if b.rescheduleCount ≥ 1 then
    .error "Appointment can only be rescheduled once"
  else
    .ok { b with
      rescheduledFromDate := some b.appointmentDate
      rescheduledFromTime := some b.appointmentTime
      appointmentDate := newDate
      appointmentTime := newTime
      status := .rescheduled
      rescheduledAt := some now
      rescheduleCount := b.rescheduleCount + 1 }

/-- Instance method completeBooking of the Booking model. -/
def Booking.completeBooking (b : Booking) : Booking :=
  { b with status := .completed }

/-- Instance method markAsNoShow of the Booking model. -/
def Booking.markAsNoShow (b : Booking) (now : Int) : Booking :=
  { b with status := .noShow, noShowMarkedAt := some now }

/-- Match condition of the no-show sweep updateMany: status confirmed,
appointmentDate strictly before now minus 30 minutes, checkedIn not
true. -/
def noShowMatch (now : Int) (b : Booking) : Bool :=
  decide (b.status = .confirmed) && decide (b.appointmentDate < now - 30 * minuteMs)
    && !b.checkedIn

/-- Static method markNoShowAppointments of the Booking model: updateMany
setting status no-show and stamping noShowMarkedAt on every matching
booking; returns the updated collection and the modified count. -/
def markNoShowAppointments (now : Int) (bookings : List Booking) : List Booking × Nat :=
  (bookings.map (fun b =>
      if noShowMatch now b then { b with status := .noShow, noShowMarkedAt := some now } else b),
   (bookings.filter (noShowMatch now)).length)

/-- Status values the PATCH /:id/status validator accepts (no-show is not
among them). -/
def userStatusAllowed : Status → Bool
  | .pending => true
  | .confirmed => true
  | .inProgress => true
  | .completed => true
  | .cancelled => true
  | .rescheduled => true
  | .noShow => false

/-- Status values the PATCH /admin/:id/status validator accepts (pending
is not among them). -/
def adminStatusAllowed : Status → Bool
  | .pending => false
  | _ => true

/-- Handler of PATCH /:id/status: after validation and the ownership
check, a cancelled request needs a reason and runs cancelBooking; any
other requested status is written directly with no check of the current
status. -/
def updateBookingStatusRoute (now : Int) (callerId : Nat) (newStatus : Status)
    (cancellationReason : Option String) (b : Booking) : Outcome :=
  if ¬ userStatusAllowed newStatus then ⟨b, some "Validation failed"⟩
  else if callerId ≠ b.user then ⟨b, some "Access denied"⟩
  else if newStatus = .cancelled then
    match cancellationReason with
    | none => ⟨b, some "Cancellation reason is required"⟩
    | some r => ⟨b.cancelBooking r now, none⟩
  else ⟨{ b with status := newStatus }, none⟩

/-- Handler of PATCH /admin/:id/status: dispatches to cancelBooking,
markAsNoShow or completeBooking by requested status, otherwise writes the
requested status (and the notes when given) directly; no branch checks the
current status. -/
def adminUpdateBookingStatusRoute (now : Int) (newStatus : Status)
    (notes cancellationReason : Option String) (b : Booking) : Outcome :=
  if ¬ adminStatusAllowed newStatus then ⟨b, some "Validation failed"⟩
  else if newStatus = .cancelled then
    match cancellationReason with
    | none => ⟨b, some "Cancellation reason is required"⟩
    | some r => ⟨b.cancelBooking r now, none⟩
  else if newStatus = .noShow then ⟨b.markAsNoShow now, none⟩
  else if newStatus = .completed then ⟨b.completeBooking, none⟩
  else
    ⟨{ b with status := newStatus,
              notes := match notes with | some n => some n | none => b.notes }, none⟩

/-- Handler of PUT /:id/cancel: rejects unless the current status is
pending or confirmed, then writes status cancelled. -/
def cancelBookingRoute (callerId : Nat) (b : Booking) : Outcome :=
  if callerId ≠ b.user then ⟨b, some "Access denied"⟩
  else if ¬ (b.status = .pending ∨ b.status = .confirmed) then
    ⟨b, some "This booking cannot be cancelled"⟩
  else ⟨{ b with status := .cancelled }, none⟩

/-- Handler of PATCH /:id/reschedule: ownership, new datetime not in the
past, status not completed or cancelled, reschedule count below one, then
the model method rescheduleBooking (whose own defensive throw would also
leave the stored document unchanged). -/
def rescheduleRoute (now : Int) (callerId : Nat) (newDate : Int) (newTime : String)
    (b : Booking) : Outcome :=
  if callerId ≠ b.user then ⟨b, some "Access denied"⟩
  else if newDate < now then ⟨b, some "New appointment date must be in the future"⟩
  else if b.status = .completed ∨ b.status = .cancelled then
    ⟨b, some "Cannot reschedule completed or cancelled bookings"⟩
  else if b.rescheduleCount ≥ 1 then ⟨b, some "Appointment can only be rescheduled once"⟩
  else
    match b.rescheduleBooking newDate newTime now with
    | .error m => ⟨b, some m⟩
    | .ok nb => ⟨nb, none⟩

/-- Handler of POST /:id/checkin: ownership, then the window check (now at
least 15 minutes before and at most 60 minutes after the computed
appointment datetime), then the already-checked-in check; on success
stores the 6-digit OTP (100000 plus the draw, the draw being floor of
Math.random() times 900000), stamps checkInTime, sets status in-progress,
checkOutEligibleTime 20 minutes later, and canCheckOut false. -/
def checkinRoute (now : Int) (callerId : Nat) (otpDraw : Nat) (b : Booking) : Outcome :=
  if callerId ≠ b.user then ⟨b, some "Access denied"⟩
  else
    let appt := appointmentDateTime b
    if now < appt - 15 * minuteMs ∨ now > appt + 60 * minuteMs then
      ⟨b, some "Check-in is only available 15 minutes before to 1 hour after your appointment time"⟩
    else if b.checkedIn then
      ⟨b, some "You have already checked in for this appointment"⟩
    else
      ⟨{ b with
          checkedIn := true
          checkInTime := some now
          checkoutOTP := some (decimalStr (100000 + otpDraw))
          status := .inProgress
          checkOutEligibleTime := some (now + 20 * minuteMs)
          canCheckOut := false }, none⟩

/-- Ceiling division by one minute of a positive millisecond gap, the
integer form of Math.ceil(gap / 60000). -/
def ceilMinutes (gap : Int) : Int := (gap + (minuteMs - 1)) / minuteMs

/-- The remaining-minutes rejection message of the self-checkout
handler. -/
def waitMessage (m : Int) : String :=
  "Please wait " ++ toString m ++ " more minute(s) before checking out"

/-- The eligible-time expression shared by the self-checkout, staff
checkout context and GET /:id handlers: the stored checkOutEligibleTime,
or checkInTime plus 20 minutes when the field is unset (the source reads
checkInTime unconditionally there, so the 0 default is only exercised on
states the handlers already rejected). -/
def eligibleTime (b : Booking) : Int :=
  b.checkOutEligibleTime.getD (b.checkInTime.getD 0 + 20 * minuteMs)

/-- Handler of POST /:id/user-checkout: ownership, checked in, not yet
checked out, then the 20-minute gate with the remaining-minutes message;
on success sets checkedOut, checkOutTime now, status completed, canCheckOut
true and clears the OTP. -/
def userCheckoutRoute (now : Int) (callerId : Nat) (b : Booking) : Outcome :=
  if callerId ≠ b.user then ⟨b, some "Access denied"⟩
  else if ¬ b.checkedIn then ⟨b, some "You must check in first"⟩
  else if b.checkedOut then ⟨b, some "You have already checked out"⟩
  else if now < eligibleTime b then
    ⟨b, some (waitMessage (ceilMinutes (eligibleTime b - now)))⟩
  else
    ⟨{ b with checkedOut := true, checkOutTime := some now, status := .completed,
              canCheckOut := true, checkoutOTP := none }, none⟩

/-- Handler of POST /:id/checkout (staff checkout): validation of the OTP
shape and admin id, checked in, not yet checked out, then the OTP
comparison; on success sets checkedOut, checkOutTime now, status
completed, records the admin and clears the OTP. -/
def staffCheckoutRoute (now : Int) (otp : String) (adminId : String) (b : Booking) : Outcome :=
  if otp.length ≠ 6 ∨ adminId.length = 0 then ⟨b, some "Validation failed"⟩
  else if ¬ b.checkedIn then ⟨b, some "Patient has not checked in yet"⟩
  else if b.checkedOut then ⟨b, some "Patient has already been checked out"⟩
  else if b.checkoutOTP ≠ some otp then
    ⟨b, some "Invalid OTP. Please check the OTP sent to patient email."⟩
  else
    ⟨{ b with checkedOut := true, checkOutTime := some now, status := .completed,
              adminCheckout := some adminId, checkoutOTP := none }, none⟩

/-- Persistent effect of GET /:id on the stored booking: when the caller
owns a checked-in, not checked-out booking whose eligible time has
arrived, the handler writes canCheckOut true and saves; on every other
path the stored document is untouched. -/
def getBookingByIdRoute (now : Int) (callerId : Nat) (b : Booking) : Booking :=
  if b.user ≠ callerId then b
  else if b.checkedIn && !b.checkedOut then
    if eligibleTime b ≤ now then { b with canCheckOut := true } else b
  else b

/-- A concrete booking used to instantiate the theorems: a confirmed,
never-rescheduled, never-checked-in appointment at 14:00. -/
def sampleBooking : Booking := {
  user := 7, location := .kokapet, appointmentDate := 1700000000000,
  appointmentTime := "14:00", status := .confirmed, totalAmount := 1000,
  bookingReference := "ZEN202511140001", notes := none, cancellationReason := none,
  cancelledAt := none, rescheduledFromDate := none, rescheduledFromTime := none,
  rescheduledAt := none, rescheduleCount := 0, noShowMarkedAt := none,
  rating := none, feedback := none, feedbackDate := none,
  checkedIn := false, checkInTime := none, checkoutOTP := none,
  checkedOut := false, checkOutTime := none, adminCheckout := none,
  canCheckOut := false, checkOutEligibleTime := none }

theorem bookableStatus_iff (s : Status) :
    bookableStatus s = true ↔ s = .pending ∨ s = .confirmed ∨ s = .inProgress := by
  cases s <;> simp [bookableStatus]

/-- C1: in the day-availability computation, a slot is past exactly when
the query date is today and the slot hour is at most the current hour plus
one; booked exactly when some booking of the collection lies on the
queried day at the queried location with appointmentTime equal to the slot
and status pending, confirmed or in-progress; isAvailable equals not
booked and not past; hence a slot occupied by a confirmed or in-progress
booking at that location and date is never available. -/
theorem availability_slot_correct
    (loc : Location) (dayStart : Int) (isToday : Bool) (currentHour : Nat)
    (bookings : List Booking) (info : SlotInfo)
    (hinfo : info ∈ getDayAvailability loc dayStart isToday currentHour bookings) :
    (info.isPastTime = true ↔ isToday = true ∧ parseHour info.time ≤ currentHour + 1) ∧
    (info.isBooked = true ↔ ∃ b ∈ bookings,
        dayStart ≤ b.appointmentDate ∧ b.appointmentDate < dayStart + (dayMs - 1) ∧
        b.location = loc ∧ (b.status = .pending ∨ b.status = .confirmed ∨ b.status = .inProgress) ∧
        b.appointmentTime = info.time) ∧
    (info.isAvailable = (!info.isBooked && !info.isPastTime)) ∧
    (∀ b ∈ bookings,
        dayStart ≤ b.appointmentDate → b.appointmentDate < dayStart + (dayMs - 1) →
        b.location = loc → (b.status = .confirmed ∨ b.status = .inProgress) →
        b.appointmentTime = info.time → info.isAvailable = false) := by
  obtain ⟨slot, hslot, rfl⟩ := List.mem_map.mp hinfo
  have hbooked : (slotDetail (availabilityQuery loc dayStart bookings) isToday currentHour
        slot).isBooked = true ↔
      ∃ b ∈ bookings,
        dayStart ≤ b.appointmentDate ∧ b.appointmentDate < dayStart + (dayMs - 1) ∧
        b.location = loc ∧ (b.status = .pending ∨ b.status = .confirmed ∨ b.status = .inProgress) ∧
        b.appointmentTime = slot := by
    simp only [slotDetail, availabilityQuery, onDay, List.any_eq_true, List.mem_filter,
      Bool.and_eq_true, decide_eq_true_eq, bookableStatus_iff]
    constructor
    · rintro ⟨b, ⟨hb, ⟨⟨h1, h2⟩, h3⟩, h4⟩, h5⟩
      exact ⟨b, hb, h1, h2, h3, h4, h5⟩
    · rintro ⟨b, hb, h1, h2, h3, h4, h5⟩
      exact ⟨b, ⟨hb, ⟨⟨h1, h2⟩, h3⟩, h4⟩, h5⟩
  refine ⟨?_, hbooked, ?_, ?_⟩
  · simp [slotDetail]
  · simp [slotDetail]
  · intro b hb h1 h2 h3 h4 h5
    have : (slotDetail (availabilityQuery loc dayStart bookings) isToday currentHour
        slot).isBooked = true := by
      exact hbooked.mpr ⟨b, hb, h1, h2, h3, by rcases h4 with h | h <;> simp [h], h5⟩
    simp only [slotDetail] at this ⊢
    simp only [this]
    simp

/-- C1 witness: the 14:00 slot of a day holding a confirmed 14:00 booking
at the same location is reported booked and not available. -/
theorem availability_slot_correct_witness :
    (⟨"14:00", false, true, false⟩ : SlotInfo) ∈
      getDayAvailability .kokapet 1699920000000 false 12 [sampleBooking] ∧
    (⟨"14:00", false, true, false⟩ : SlotInfo).isAvailable = false :=
  ⟨by decide,
   (availability_slot_correct .kokapet 1699920000000 false 12 [sampleBooking] _
      (by decide)).2.2.2 sampleBooking (List.mem_singleton.mpr rfl) (by decide) (by decide)
      rfl (Or.inl rfl) (by decide)⟩

/-- C2: a reschedule request against a booking whose rescheduleCount is at
least one always fails and leaves the stored booking (in particular its
appointmentDate and appointmentTime) unchanged; when the preceding guards
pass, the rejection is the can-only-be-rescheduled-once message; and the
reschedule route keeps rescheduleCount at most one. -/
theorem reschedule_once_guard :
    (∀ (now : Int) (caller : Nat) (nd : Int) (nt : String) (b : Booking),
        1 ≤ b.rescheduleCount →
        (rescheduleRoute now caller nd nt b).booking = b ∧
        (rescheduleRoute now caller nd nt b).error.isSome = true ∧
        (caller = b.user → now ≤ nd → b.status ≠ .completed → b.status ≠ .cancelled →
          (rescheduleRoute now caller nd nt b).error =
            some "Appointment can only be rescheduled once")) ∧
    (∀ (now : Int) (caller : Nat) (nd : Int) (nt : String) (b : Booking),
        b.rescheduleCount ≤ 1 →
        (rescheduleRoute now caller nd nt b).booking.rescheduleCount ≤ 1) := by
  constructor
  · intro now caller nd nt b hcount
    unfold rescheduleRoute
    by_cases h1 : caller ≠ b.user
    · rw [if_pos h1]
      exact ⟨rfl, rfl, fun hu _ _ _ => absurd hu h1⟩
    rw [if_neg h1]
    by_cases h2 : nd < now
    · rw [if_pos h2]
      exact ⟨rfl, rfl, fun _ hle _ _ => absurd h2 (not_lt.mpr hle)⟩
    rw [if_neg h2]
    by_cases h3 : b.status = .completed ∨ b.status = .cancelled
    · rw [if_pos h3]
      refine ⟨rfl, rfl, fun _ _ hc1 hc2 => ?_⟩
      rcases h3 with h | h
      · exact absurd h hc1
      · exact absurd h hc2
    rw [if_neg h3, if_pos hcount]
    exact ⟨rfl, rfl, fun _ _ _ _ => rfl⟩
  · intro now caller nd nt b hcount
    unfold rescheduleRoute
    by_cases h1 : caller ≠ b.user
    · rw [if_pos h1]; exact hcount
    rw [if_neg h1]
    by_cases h2 : nd < now
    · rw [if_pos h2]; exact hcount
    rw [if_neg h2]
    by_cases h3 : b.status = .completed ∨ b.status = .cancelled
    · rw [if_pos h3]; exact hcount
    rw [if_neg h3]
    by_cases h4 : b.rescheduleCount ≥ 1
    · rw [if_pos h4]; exact hcount
    rw [if_neg h4]
    unfold Booking.rescheduleBooking
    rw [if_neg h4]
    show b.rescheduleCount + 1 ≤ 1
    omega

/-- C2 witness: a booking already rescheduled once is rejected with the
once-only message and keeps its date and time. -/
theorem reschedule_once_guard_witness :
    1 ≤ ({ sampleBooking with rescheduleCount := 1 } : Booking).rescheduleCount ∧
    (rescheduleRoute 0 7 100 "11:00" { sampleBooking with rescheduleCount := 1 }).booking =
      { sampleBooking with rescheduleCount := 1 } ∧
    (rescheduleRoute 0 7 100 "11:00" { sampleBooking with rescheduleCount := 1 }).error =
      some "Appointment can only be rescheduled once" :=
  ⟨by decide,
   (reschedule_once_guard.1 0 7 100 "11:00" { sampleBooking with rescheduleCount := 1 }
      (by decide)).1,
   (reschedule_once_guard.1 0 7 100 "11:00" { sampleBooking with rescheduleCount := 1 }
      (by decide)).2.2 rfl (by decide) (by decide) (by decide)⟩

/-- A completed booking used as the concrete terminal-state input. -/
def bkCompleted : Booking := { sampleBooking with status := .completed }

/-- C3 counterexample: a completed (terminal) booking submitted to PATCH
/:id/status with requested status confirmed is accepted and its status
changes, so terminal states are not protected by that operation. -/
theorem terminal_status_counterexample :
    bkCompleted.status = .completed ∧
    (updateBookingStatusRoute 0 7 .confirmed none bkCompleted).error = none ∧
    (updateBookingStatusRoute 0 7 .confirmed none bkCompleted).booking.status = .confirmed := by
  exact ⟨rfl, rfl, rfl⟩

/-- C3 amended: the direct status-update routes overwrite a terminal
status with any requested (validator-accepted) status, while the guarded
operations reject: PUT /:id/cancel leaves any terminal booking unchanged,
and PATCH /:id/reschedule leaves any completed or cancelled booking
unchanged. -/
theorem terminal_status_guards :
    (∀ (now : Int) (caller : Nat) (s : Status) (r : Option String) (b : Booking),
        (b.status = .completed ∨ b.status = .cancelled ∨ b.status = .noShow) →
        userStatusAllowed s = true → s ≠ .cancelled → caller = b.user →
        (updateBookingStatusRoute now caller s r b).error = none ∧
        (updateBookingStatusRoute now caller s r b).booking.status = s) ∧
    (∀ (now : Int) (s : Status) (notes r : Option String) (b : Booking),
        (b.status = .completed ∨ b.status = .cancelled ∨ b.status = .noShow) →
        adminStatusAllowed s = true → s ≠ .cancelled → s ≠ .noShow → s ≠ .completed →
        (adminUpdateBookingStatusRoute now s notes r b).error = none ∧
        (adminUpdateBookingStatusRoute now s notes r b).booking.status = s) ∧
    (∀ (caller : Nat) (b : Booking),
        (b.status = .completed ∨ b.status = .cancelled ∨ b.status = .noShow) →
        (cancelBookingRoute caller b).booking = b ∧
        (cancelBookingRoute caller b).error.isSome = true) ∧
    (∀ (now : Int) (caller : Nat) (nd : Int) (nt : String) (b : Booking),
        (b.status = .completed ∨ b.status = .cancelled) →
        (rescheduleRoute now caller nd nt b).booking = b ∧
        (rescheduleRoute now caller nd nt b).error.isSome = true) := by
  refine ⟨?_, ?_, ?_, ?_⟩
  · intro now caller s r b _ hall hnc hcaller
    unfold updateBookingStatusRoute
    rw [if_neg (by simp [hall]), if_neg (by simp [hcaller]), if_neg hnc]
    exact ⟨rfl, rfl⟩
  · intro now s notes r b _ hall hnc hns hnd
    unfold adminUpdateBookingStatusRoute
    rw [if_neg (by simp [hall]), if_neg hnc, if_neg hns, if_neg hnd]
    exact ⟨rfl, rfl⟩
  · intro caller b hterm
    unfold cancelBookingRoute
    by_cases h1 : caller ≠ b.user
    · rw [if_pos h1]; exact ⟨rfl, rfl⟩
    rw [if_neg h1, if_pos ?_]
    · exact ⟨rfl, rfl⟩
    · rintro (h | h) <;> rcases hterm with ht | ht | ht <;> rw [ht] at h <;> exact Status.noConfusion h
  · intro now caller nd nt b hterm
    unfold rescheduleRoute
    by_cases h1 : caller ≠ b.user
    · rw [if_pos h1]; exact ⟨rfl, rfl⟩
    rw [if_neg h1]
    by_cases h2 : nd < now
    · rw [if_pos h2]; exact ⟨rfl, rfl⟩
    rw [if_neg h2, if_pos hterm]
    exact ⟨rfl, rfl⟩

/-- C3 amended witness: the user status route moves a completed booking to
in-progress, the cancel route rejects it, the reschedule route rejects
it. -/
theorem terminal_status_guards_witness :
    ((updateBookingStatusRoute 0 7 .inProgress none bkCompleted).booking.status = .inProgress) ∧
    ((adminUpdateBookingStatusRoute 0 .confirmed none none bkCompleted).booking.status =
      .confirmed) ∧
    ((cancelBookingRoute 7 bkCompleted).booking = bkCompleted) ∧
    ((rescheduleRoute 0 7 100 "11:00" bkCompleted).error.isSome = true) :=
  ⟨(terminal_status_guards.1 0 7 .inProgress none bkCompleted (Or.inl rfl) rfl
      (by decide) rfl).2,
   (terminal_status_guards.2.1 0 .confirmed none none bkCompleted (Or.inl rfl) rfl
      (by decide) (by decide) (by decide)).2,
   (terminal_status_guards.2.2.1 7 bkCompleted (Or.inl rfl)).1,
   (terminal_status_guards.2.2.2 0 7 100 "11:00" bkCompleted (Or.inl rfl)).2⟩

/-- C8 counterexample: a successful reschedule of a confirmed,
never-rescheduled booking leaves the booking in status rescheduled, not
confirmed. -/
theorem reschedule_status_counterexample :
    sampleBooking.status = .confirmed ∧ sampleBooking.rescheduleCount = 0 ∧
    (rescheduleRoute 0 7 1800000000000 "15:00" sampleBooking).error = none ∧
    (rescheduleRoute 0 7 1800000000000 "15:00" sampleBooking).booking.status = .rescheduled ∧
    ¬ (rescheduleRoute 0 7 1800000000000 "15:00" sampleBooking).booking.status = .confirmed := by
  exact ⟨rfl, rfl, rfl, rfl, by decide⟩

/-- C8 amended: a successful reschedule (owner, new datetime not in the
past, status not completed or cancelled, rescheduleCount below one)
snapshots the prior date and time into the rescheduledFrom fields,
overwrites appointmentDate and appointmentTime, increments
rescheduleCount, stamps rescheduledAt, and leaves the booking in status
rescheduled (the transient marker the spec equates with confirmed) with
the new date and time. -/
theorem reschedule_success_effects (now : Int) (caller : Nat) (nd : Int) (nt : String)
    (b : Booking) (hown : caller = b.user) (hfut : now ≤ nd)
    (hst1 : b.status ≠ .completed) (hst2 : b.status ≠ .cancelled)
    (hcount : b.rescheduleCount < 1) :
    (rescheduleRoute now caller nd nt b).error = none ∧
    (rescheduleRoute now caller nd nt b).booking.rescheduledFromDate = some b.appointmentDate ∧
    (rescheduleRoute now caller nd nt b).booking.rescheduledFromTime = some b.appointmentTime ∧
    (rescheduleRoute now caller nd nt b).booking.appointmentDate = nd ∧
    (rescheduleRoute now caller nd nt b).booking.appointmentTime = nt ∧
    (rescheduleRoute now caller nd nt b).booking.rescheduleCount = b.rescheduleCount + 1 ∧
    (rescheduleRoute now caller nd nt b).booking.rescheduledAt = some now ∧
    (rescheduleRoute now caller nd nt b).booking.status = .rescheduled := by
  unfold rescheduleRoute
  rw [if_neg (by simp [hown]), if_neg (not_lt.mpr hfut),
    if_neg (by rintro (h | h); exact hst1 h; exact hst2 h), if_neg (by omega)]
  unfold Booking.rescheduleBooking
  rw [if_neg (by omega)]
  exact ⟨rfl, rfl, rfl, rfl, rfl, rfl, rfl, rfl⟩

/-- C8 amended witness: rescheduling the sample booking to a concrete new
date and time produces exactly the amended field updates. -/
theorem reschedule_success_effects_witness :
    (rescheduleRoute 0 7 1800000000000 "15:00" sampleBooking).booking.appointmentDate =
      1800000000000 ∧
    (rescheduleRoute 0 7 1800000000000 "15:00" sampleBooking).booking.rescheduleCount = 1 ∧
    (rescheduleRoute 0 7 1800000000000 "15:00" sampleBooking).booking.status = .rescheduled :=
  ⟨(reschedule_success_effects 0 7 1800000000000 "15:00" sampleBooking rfl (by decide)
      (by decide) (by decide) (by decide)).2.2.2.1,
   (reschedule_success_effects 0 7 1800000000000 "15:00" sampleBooking rfl (by decide)
      (by decide) (by decide) (by decide)).2.2.2.2.2.1,
   (reschedule_success_effects 0 7 1800000000000 "15:00" sampleBooking rfl (by decide)
      (by decide) (by decide) (by decide)).2.2.2.2.2.2.2⟩

/-- C4: on a checked-in, not yet checked-out booking, staff checkout with
a non-matching OTP fails and leaves the stored booking untouched; with the
matching OTP it succeeds, sets checkedOut and status completed, clears the
OTP, and an immediate replay of the same OTP fails and changes nothing. -/
theorem staff_checkout_otp (now now2 : Int) (otp adminId : String) (b : Booking)
    (hin : b.checkedIn = true) (hout : b.checkedOut = false)
    (hlen : otp.length = 6) (hadmin : adminId.length ≠ 0) :
    (b.checkoutOTP ≠ some otp →
      (staffCheckoutRoute now otp adminId b).booking = b ∧
      (staffCheckoutRoute now otp adminId b).error.isSome = true) ∧
    (b.checkoutOTP = some otp →
      (staffCheckoutRoute now otp adminId b).error = none ∧
      (staffCheckoutRoute now otp adminId b).booking.checkedOut = true ∧
      (staffCheckoutRoute now otp adminId b).booking.status = .completed ∧
      (staffCheckoutRoute now otp adminId b).booking.checkoutOTP = none ∧
      (staffCheckoutRoute now2 otp adminId (staffCheckoutRoute now otp adminId b).booking).booking
        = (staffCheckoutRoute now otp adminId b).booking ∧
      (staffCheckoutRoute now2 otp adminId
          (staffCheckoutRoute now otp adminId b).booking).error.isSome = true) := by
  have hval : ¬ (otp.length ≠ 6 ∨ adminId.length = 0) := by
    rintro (h | h)
    · exact h hlen
    · exact hadmin h
  constructor
  · intro hne
    unfold staffCheckoutRoute
    rw [if_neg hval, if_neg (by simp [hin]), if_neg (by simp [hout]), if_pos hne]
    exact ⟨rfl, rfl⟩
  · intro heq
    have hfirst : staffCheckoutRoute now otp adminId b =
        ⟨{ b with checkedOut := true, checkOutTime := some now, status := .completed,
                  adminCheckout := some adminId, checkoutOTP := none }, none⟩ := by
      unfold staffCheckoutRoute
      rw [if_neg hval, if_neg (by simp [hin]), if_neg (by simp [hout]),
        if_neg (fun h => h heq)]
    rw [hfirst]
    refine ⟨rfl, rfl, rfl, rfl, ?_, ?_⟩
    · unfold staffCheckoutRoute
      rw [if_neg hval, if_neg (fun h => h hin), if_pos rfl]
    · unfold staffCheckoutRoute
      rw [if_neg hval, if_neg (fun h => h hin), if_pos rfl]
      rfl

/-- A checked-in booking holding the 6-digit checkout OTP 123456. -/
def bkCheckedIn : Booking :=
  { sampleBooking with
    status := .inProgress, checkedIn := true,
    checkInTime := some 1699970400000, checkoutOTP := some "123456",
    checkOutEligibleTime := some (1699970400000 + 20 * minuteMs) }

/-- C4 witness: the wrong OTP 999999 is rejected and changes nothing; the
stored OTP 123456 checks the patient out and its replay is rejected. -/
theorem staff_checkout_otp_witness :
    ((staffCheckoutRoute 0 "999999" "adm1" bkCheckedIn).booking = bkCheckedIn) ∧
    ((staffCheckoutRoute 0 "123456" "adm1" bkCheckedIn).error = none) ∧
    ((staffCheckoutRoute 0 "123456" "adm1" bkCheckedIn).booking.checkedOut = true) ∧
    ((staffCheckoutRoute 1 "123456" "adm1"
        (staffCheckoutRoute 0 "123456" "adm1" bkCheckedIn).booking).error.isSome = true) :=
  ⟨(staff_checkout_otp 0 1 "999999" "adm1" bkCheckedIn (by decide) (by decide) (by decide)
      (by decide)).1 (by decide) |>.1,
   ((staff_checkout_otp 0 1 "123456" "adm1" bkCheckedIn (by decide) (by decide) (by decide)
      (by decide)).2 (by decide)).1,
   ((staff_checkout_otp 0 1 "123456" "adm1" bkCheckedIn (by decide) (by decide) (by decide)
      (by decide)).2 (by decide)).2.1,
   ((staff_checkout_otp 0 1 "123456" "adm1" bkCheckedIn (by decide) (by decide) (by decide)
      (by decide)).2 (by decide)).2.2.2.2.2⟩

/-- C5: on a checked-in, not yet checked-out booking whose eligible time
is check-in plus 20 minutes (or unset, in which case the handler derives
exactly that), a self-checkout strictly before that moment fails with the
remaining-minutes message (whose count is the ceiling of the remaining
millisecond gap in minutes) and mutates nothing; at or after that moment
it succeeds, setting checkedOut, checkOutTime now, status completed and
clearing the OTP. -/
theorem user_checkout_gate (now : Int) (caller : Nat) (b : Booking) (t : Int)
    (hown : caller = b.user) (hin : b.checkedIn = true) (hout : b.checkedOut = false)
    (htin : b.checkInTime = some t)
    (helig : b.checkOutEligibleTime = some (t + 20 * minuteMs) ∨
      b.checkOutEligibleTime = none) :
    (now < t + 20 * minuteMs →
      (userCheckoutRoute now caller b).booking = b ∧
      (userCheckoutRoute now caller b).error =
        some (waitMessage (ceilMinutes (t + 20 * minuteMs - now))) ∧
      minuteMs * (ceilMinutes (t + 20 * minuteMs - now) - 1) < t + 20 * minuteMs - now ∧
      t + 20 * minuteMs - now ≤ minuteMs * ceilMinutes (t + 20 * minuteMs - now)) ∧
    (t + 20 * minuteMs ≤ now →
      (userCheckoutRoute now caller b).error = none ∧
      (userCheckoutRoute now caller b).booking.checkedOut = true ∧
      (userCheckoutRoute now caller b).booking.checkOutTime = some now ∧
      (userCheckoutRoute now caller b).booking.status = .completed ∧
      (userCheckoutRoute now caller b).booking.checkoutOTP = none) := by
  have helig2 : eligibleTime b = t + 20 * minuteMs := by
    rcases helig with h | h <;> simp [eligibleTime, h, htin]
  constructor
  · intro hlt
    unfold userCheckoutRoute
    rw [helig2, if_neg (by simp [hown]), if_neg (by simp [hin]), if_neg (by simp [hout]),
      if_pos hlt]
    refine ⟨rfl, rfl, ?_, ?_⟩ <;>
    · unfold ceilMinutes minuteMs
      unfold minuteMs at hlt
      omega
  · intro hge
    unfold userCheckoutRoute
    rw [helig2, if_neg (by simp [hown]), if_neg (by simp [hin]), if_neg (by simp [hout]),
      if_neg (not_lt.mpr hge)]
    exact ⟨rfl, rfl, rfl, rfl, rfl⟩

/-- C5 witness: five minutes after check-in the gate rejects with a
fifteen-minute wait; twenty minutes after check-in the checkout
completes. -/
theorem user_checkout_gate_witness :
    ((userCheckoutRoute (1699970400000 + 5 * minuteMs) 7 bkCheckedIn).error =
      some (waitMessage 15)) ∧
    ((userCheckoutRoute (1699970400000 + 20 * minuteMs) 7 bkCheckedIn).error = none) ∧
    ((userCheckoutRoute (1699970400000 + 20 * minuteMs) 7 bkCheckedIn).booking.status =
      .completed) :=
  ⟨by
    have h := ((user_checkout_gate (1699970400000 + 5 * minuteMs) 7 bkCheckedIn 1699970400000
      (by decide) (by decide) (by decide) (by decide) (Or.inl (by decide))).1 (by decide)).2.1
    rw [h]
    rfl,
   ((user_checkout_gate (1699970400000 + 20 * minuteMs) 7 bkCheckedIn 1699970400000
      (by decide) (by decide) (by decide) (by decide) (Or.inl (by decide))).2 (by decide)).1,
   ((user_checkout_gate (1699970400000 + 20 * minuteMs) 7 bkCheckedIn 1699970400000
      (by decide) (by decide) (by decide) (by decide) (Or.inl (by decide))).2 (by decide)).2.2.2.1⟩

/-- C6: for a confirmed booking that has not checked in yet, check-in
succeeds exactly when now lies in the closed interval from 15 minutes
before to 60 minutes after the computed appointment datetime (so the
minus-15-minute boundary succeeds and one minute earlier fails); on
success the status becomes in-progress, the stored checkoutOTP is the
6-digit rendering of 100000 plus the draw, checkInTime is now,
checkOutEligibleTime is checkInTime plus 20 minutes, and canCheckOut is
false. -/
theorem checkin_window (now : Int) (caller : Nat) (draw : Nat) (b : Booking)
    (_hstatus : b.status = .confirmed) (hnotin : b.checkedIn = false)
    (hown : caller = b.user) (hdraw : draw < 900000) :
    ((checkinRoute now caller draw b).error = none ↔
      appointmentDateTime b - 15 * minuteMs ≤ now ∧
        now ≤ appointmentDateTime b + 60 * minuteMs) ∧
    (appointmentDateTime b - 15 * minuteMs ≤ now →
      now ≤ appointmentDateTime b + 60 * minuteMs →
      (checkinRoute now caller draw b).booking.status = .inProgress ∧
      (checkinRoute now caller draw b).booking.checkedIn = true ∧
      (checkinRoute now caller draw b).booking.checkoutOTP =
        some (decimalStr (100000 + draw)) ∧
      100000 ≤ 100000 + draw ∧ 100000 + draw ≤ 999999 ∧
      (decimalStr (100000 + draw)).length = 6 ∧
      (checkinRoute now caller draw b).booking.checkInTime = some now ∧
      (checkinRoute now caller draw b).booking.checkOutEligibleTime =
        some (now + 20 * minuteMs) ∧
      (checkinRoute now caller draw b).booking.canCheckOut = false) := by
  have hotp6 : (decimalStr (100000 + draw)).length = 6 := by
    rw [decimalStr_length _ (by omega)]
    have hlog : Nat.log 10 (100000 + draw) = 5 :=
      Nat.log_eq_of_pow_le_of_lt_pow (by norm_num) (by norm_num; omega)
    rw [hlog]
  constructor
  · by_cases hw : now < appointmentDateTime b - 15 * minuteMs ∨
        now > appointmentDateTime b + 60 * minuteMs
    · have hnot : ¬ (appointmentDateTime b - 15 * minuteMs ≤ now ∧
          now ≤ appointmentDateTime b + 60 * minuteMs) := by
        rcases hw with h | h <;> intro hc <;> omega
      unfold checkinRoute
      rw [if_neg (by simp [hown]), if_pos hw]
      exact ⟨fun h => Option.noConfusion h, fun h => absurd h hnot⟩
    · unfold checkinRoute
      rw [if_neg (by simp [hown]), if_neg hw, if_neg (by simp [hnotin])]
      push_neg at hw
      exact ⟨fun _ => ⟨by omega, by omega⟩, fun _ => rfl⟩
  · intro h1 h2
    have hw : ¬ (now < appointmentDateTime b - 15 * minuteMs ∨
        now > appointmentDateTime b + 60 * minuteMs) := by
      rintro (h | h) <;> omega
    unfold checkinRoute
    rw [if_neg (by simp [hown]), if_neg hw, if_neg (by simp [hnotin])]
    exact ⟨rfl, rfl, rfl, by omega, by omega, hotp6, rfl, rfl, rfl⟩

/-- C6 witness: at exactly 15 minutes before the sample 14:00 appointment
check-in succeeds and stores a 6-digit OTP; the window characterization
also rejects 16 minutes before. -/
theorem checkin_window_witness :
    ((checkinRoute (appointmentDateTime sampleBooking - 15 * minuteMs) 7 1234
        sampleBooking).error = none) ∧
    ((checkinRoute (appointmentDateTime sampleBooking - 15 * minuteMs) 7 1234
        sampleBooking).booking.status = .inProgress) ∧
    ((checkinRoute (appointmentDateTime sampleBooking - 15 * minuteMs) 7 1234
        sampleBooking).booking.checkoutOTP = some "101234") ∧
    ¬ ((checkinRoute (appointmentDateTime sampleBooking - 16 * minuteMs) 7 1234
        sampleBooking).error = none) :=
  ⟨(checkin_window (appointmentDateTime sampleBooking - 15 * minuteMs) 7 1234 sampleBooking
      rfl rfl rfl (by decide)).1.mpr ⟨by decide, by decide⟩,
   ((checkin_window (appointmentDateTime sampleBooking - 15 * minuteMs) 7 1234 sampleBooking
      rfl rfl rfl (by decide)).2 (by decide) (by decide)).1,
   by
    have h := ((checkin_window (appointmentDateTime sampleBooking - 15 * minuteMs) 7 1234
      sampleBooking rfl rfl rfl (by decide)).2 (by decide) (by decide)).2.2.1
    rw [h]
    decide,
   fun hc =>
    absurd ((checkin_window (appointmentDateTime sampleBooking - 16 * minuteMs) 7 1234
      sampleBooking rfl rfl rfl (by decide)).1.mp hc) (by decide)⟩

theorem noShowMatch_iff (now : Int) (b : Booking) :
    noShowMatch now b = true ↔
      b.status = .confirmed ∧ b.appointmentDate < now - 30 * minuteMs ∧ b.checkedIn = false := by
  simp [noShowMatch, Bool.and_eq_true, decide_eq_true_eq, Bool.not_eq_true']
  tauto

theorem noShowMatch_after_sweep (now : Int) (b : Booking) :
    noShowMatch now
      (if noShowMatch now b then { b with status := .noShow, noShowMarkedAt := some now }
       else b) = false := by
  by_cases h : noShowMatch now b = true
  · rw [if_pos h]
    simp [noShowMatch]
  · rw [if_neg (by simp [h]), Bool.eq_false_iff]
    intro hc
    exact absurd hc (by simp [h])

/-- C7: the no-show sweep transitions to no-show, stamping noShowMarkedAt,
exactly those bookings whose status is confirmed, whose appointmentDate is
strictly older than now minus 30 minutes and which never checked in
(leaving every other booking untouched), and it is idempotent: a second
run at the same instant modifies zero bookings and leaves the collection
identical. -/
theorem noshow_sweep_correct (now : Int) (bookings : List Booking) :
    (∀ i b, bookings.get? i = some b →
      ((b.status = .confirmed ∧ b.appointmentDate < now - 30 * minuteMs ∧
          b.checkedIn = false →
        (markNoShowAppointments now bookings).1.get? i =
          some { b with status := .noShow, noShowMarkedAt := some now }) ∧
       (¬ (b.status = .confirmed ∧ b.appointmentDate < now - 30 * minuteMs ∧
          b.checkedIn = false) →
        (markNoShowAppointments now bookings).1.get? i = some b))) ∧
    (markNoShowAppointments now (markNoShowAppointments now bookings).1).2 = 0 ∧
    (markNoShowAppointments now (markNoShowAppointments now bookings).1).1 =
      (markNoShowAppointments now bookings).1 := by
  refine ⟨?_, ?_, ?_⟩
  · intro i b hib
    constructor
    · intro hcond
      have hmatch : noShowMatch now b = true := (noShowMatch_iff now b).mpr hcond
      show (List.map _ bookings).get? i = _
      rw [List.get?_map, hib]
      simp [hmatch]
    · intro hcond
      have hmatch : noShowMatch now b = false := by
        rw [Bool.eq_false_iff]
        intro hc
        exact hcond ((noShowMatch_iff now b).mp hc)
      show (List.map _ bookings).get? i = _
      rw [List.get?_map, hib]
      simp [hmatch]
  · show (List.filter _ (List.map _ bookings)).length = 0
    rw [List.length_eq_zero, List.filter_eq_nil]
    intro x hx
    obtain ⟨b, _, rfl⟩ := List.mem_map.mp hx
    simp [noShowMatch_after_sweep]
  · show List.map _ (List.map _ bookings) = List.map _ bookings
    rw [List.map_map]
    refine List.map_congr_left ?_
    intro b _
    show (if noShowMatch now _ then _ else _) = _
    rw [if_neg (by simp [noShowMatch_after_sweep])]

/-- C7 witness: on a two-booking collection where only the first matches
the guard, the sweep marks exactly the first booking and a rerun at the
same instant changes nothing. -/
theorem noshow_sweep_correct_witness :
    ((markNoShowAppointments 1700010000000 [sampleBooking, bkCheckedIn]).1.get? 0 =
      some { sampleBooking with status := .noShow, noShowMarkedAt := some 1700010000000 }) ∧
    ((markNoShowAppointments 1700010000000 [sampleBooking, bkCheckedIn]).1.get? 1 =
      some bkCheckedIn) ∧
    ((markNoShowAppointments 1700010000000
        (markNoShowAppointments 1700010000000 [sampleBooking, bkCheckedIn]).1).2 = 0) :=
  ⟨((noshow_sweep_correct 1700010000000 [sampleBooking, bkCheckedIn]).1 0 sampleBooking
      (by decide)).1 (by decide),
   ((noshow_sweep_correct 1700010000000 [sampleBooking, bkCheckedIn]).1 1 bkCheckedIn
      (by decide)).2 (by decide),
   (noshow_sweep_correct 1700010000000 [sampleBooking, bkCheckedIn]).2.1⟩

theorem pad2_length (s : String) (h : s.length ≤ 2) : (pad2 s).length = 2 := by
  unfold pad2
  by_cases h2 : 2 ≤ s.length
  · rw [if_pos h2]; omega
  · rw [if_neg h2, String.length_append, String.length_mk, List.length_replicate]
    omega

theorem pad2_digits (s : String) (h : ∀ c ∈ s.data, c.isDigit = true) :
    ∀ c ∈ (pad2 s).data, c.isDigit = true := by
  unfold pad2
  by_cases h2 : 2 ≤ s.length
  · rw [if_pos h2]; exact h
  · rw [if_neg h2]
    intro c hc
    rw [String.data_append] at hc
    rcases List.mem_append.mp hc with hmem | hmem
    · have : c = '0' := List.eq_of_mem_replicate hmem
      rw [this]; decide
    · exact h c hmem

theorem decimalStr_length_le (n : Nat) (h : n ≤ 99) : (decimalStr n).length ≤ 2 := by
  by_cases h0 : n = 0
  · rw [h0]; decide
  · rw [decimalStr_length n (by omega)]
    have : Nat.log 10 n < 2 := Nat.log_lt_of_lt_pow h0 (by norm_num; omega)
    omega

theorem referenceDateStr_length (y m d : Nat) (hy1 : 1000 ≤ y) (hy2 : y ≤ 9999)
    (hm : m ≤ 99) (hd : d ≤ 99) : (referenceDateStr y m d).length = 8 := by
  unfold referenceDateStr
  rw [String.length_append, String.length_append, decimalStr_length y (by omega),
    pad2_length _ (decimalStr_length_le m hm), pad2_length _ (decimalStr_length_le d hd)]
  have : Nat.log 10 y = 3 := Nat.log_eq_of_pow_le_of_lt_pow (by norm_num; omega) (by norm_num; omega)
  rw [this]

theorem referenceDateStr_digits (y m d : Nat) :
    ∀ c ∈ (referenceDateStr y m d).data, c.isDigit = true := by
  unfold referenceDateStr
  intro c hc
  rw [String.data_append, String.data_append] at hc
  rcases List.mem_append.mp hc with hmem | hmem
  · rcases List.mem_append.mp hmem with hm2 | hm2
    · exact decimalStr_digits y c hm2
    · exact pad2_digits _ (decimalStr_digits m) c hm2
  · exact pad2_digits _ (decimalStr_digits d) c hmem

/-- C9: the generated booking reference is exactly the prefix ZEN followed
by the local date as an eight-digit zero-padded YYYYMMDD block followed by
the decimal rendering of the random suffix, and for every possible random
draw that suffix lies between 1000 and 9999 inclusive and is four digits
long, making the whole reference 15 characters. -/
theorem booking_reference_format (year month day rand : Nat)
    (hy1 : 1000 ≤ year) (hy2 : year ≤ 9999) (hm1 : 1 ≤ month) (hm2 : month ≤ 12)
    (hd1 : 1 ≤ day) (hd2 : day ≤ 31) (hr : rand < 9000) :
    generateBookingReference year month day rand =
      "ZEN" ++ referenceDateStr year month day ++ decimalStr (1000 + rand) ∧
    (referenceDateStr year month day).length = 8 ∧
    (∀ c ∈ (referenceDateStr year month day).data, c.isDigit = true) ∧
    1000 ≤ 1000 + rand ∧ 1000 + rand ≤ 9999 ∧
    (decimalStr (1000 + rand)).length = 4 ∧
    (∀ c ∈ (decimalStr (1000 + rand)).data, c.isDigit = true) ∧
    (generateBookingReference year month day rand).length = 15 := by
  have hdate : (referenceDateStr year month day).length = 8 :=
    referenceDateStr_length year month day hy1 hy2 (by omega) (by omega)
  have hsuf : (decimalStr (1000 + rand)).length = 4 := by
    rw [decimalStr_length _ (by omega)]
    have : Nat.log 10 (1000 + rand) = 3 :=
      Nat.log_eq_of_pow_le_of_lt_pow (by norm_num) (by norm_num; omega)
    rw [this]
  refine ⟨rfl, hdate, referenceDateStr_digits year month day, by omega, by omega, hsuf,
    decimalStr_digits _, ?_⟩
  show ("ZEN" ++ referenceDateStr year month day ++ decimalStr (1000 + rand)).length = 15
  rw [String.length_append, String.length_append, hdate, hsuf]
  decide

/-- C9 witness: the draw 123 on 2025-03-07 yields ZEN202503071123, a
15-character reference with the 4-digit suffix 1123. -/
theorem booking_reference_format_witness :
    generateBookingReference 2025 3 7 123 = "ZEN202503071123" ∧
    (generateBookingReference 2025 3 7 123).length = 15 ∧
    1000 ≤ 1000 + 123 ∧ 1000 + 123 ≤ 9999 :=
  ⟨by decide,
   (booking_reference_format 2025 3 7 123 (by decide) (by decide) (by decide) (by decide)
      (by decide) (by decide) (by decide)).2.2.2.2.2.2.2,
   (booking_reference_format 2025 3 7 123 (by decide) (by decide) (by decide) (by decide)
      (by decide) (by decide) (by decide)).2.2.2.1,
   (booking_reference_format 2025 3 7 123 (by decide) (by decide) (by decide) (by decide)
      (by decide) (by decide) (by decide)).2.2.2.2.1⟩

/-- Equality of two bookings on every persisted field other than
canCheckOut. -/
def sameExceptCanCheckOut (a b : Booking) : Prop :=
  a.user = b.user ∧ a.location = b.location ∧ a.appointmentDate = b.appointmentDate ∧
  a.appointmentTime = b.appointmentTime ∧ a.status = b.status ∧
  a.totalAmount = b.totalAmount ∧ a.bookingReference = b.bookingReference ∧
  a.notes = b.notes ∧ a.cancellationReason = b.cancellationReason ∧
  a.cancelledAt = b.cancelledAt ∧ a.rescheduledFromDate = b.rescheduledFromDate ∧
  a.rescheduledFromTime = b.rescheduledFromTime ∧ a.rescheduledAt = b.rescheduledAt ∧
  a.rescheduleCount = b.rescheduleCount ∧ a.noShowMarkedAt = b.noShowMarkedAt ∧
  a.rating = b.rating ∧ a.feedback = b.feedback ∧ a.feedbackDate = b.feedbackDate ∧
  a.checkedIn = b.checkedIn ∧ a.checkInTime = b.checkInTime ∧
  a.checkoutOTP = b.checkoutOTP ∧ a.checkedOut = b.checkedOut ∧
  a.checkOutTime = b.checkOutTime ∧ a.adminCheckout = b.adminCheckout ∧
  a.checkOutEligibleTime = b.checkOutEligibleTime

theorem sameExceptCanCheckOut_refl (b : Booking) : sameExceptCanCheckOut b b := by
  unfold sameExceptCanCheckOut
  exact ⟨rfl, rfl, rfl, rfl, rfl, rfl, rfl, rfl, rfl, rfl, rfl, rfl, rfl, rfl, rfl, rfl,
    rfl, rfl, rfl, rfl, rfl, rfl, rfl, rfl, rfl⟩

/-- C10: the get-booking-by-id read has a single persistent write: when
the caller owns a checked-in, not checked-out booking whose
checkOutEligibleTime is at or before now, it persists canCheckOut true;
and in every case every persisted field other than canCheckOut is left
unchanged. -/
theorem getBookingById_frame (now : Int) (caller : Nat) (b : Booking) :
    (b.user = caller → b.checkedIn = true → b.checkedOut = false →
      ∀ t, b.checkOutEligibleTime = some t → t ≤ now →
        (getBookingByIdRoute now caller b).canCheckOut = true) ∧
    sameExceptCanCheckOut (getBookingByIdRoute now caller b) b := by
  constructor
  · intro hu hin hout t helig hle
    unfold getBookingByIdRoute
    rw [if_neg (by simp [hu]), if_pos (by simp [hin, hout]),
      if_pos (show eligibleTime b ≤ now by simp [eligibleTime, helig, hle])]
  · unfold getBookingByIdRoute
    by_cases h1 : b.user ≠ caller
    · rw [if_pos h1]; exact sameExceptCanCheckOut_refl b
    rw [if_neg h1]
    by_cases h2 : (b.checkedIn && !b.checkedOut) = true
    · rw [if_pos h2]
      by_cases h3 : eligibleTime b ≤ now
      · rw [if_pos h3]
        unfold sameExceptCanCheckOut
        exact ⟨rfl, rfl, rfl, rfl, rfl, rfl, rfl, rfl, rfl, rfl, rfl, rfl, rfl, rfl, rfl,
          rfl, rfl, rfl, rfl, rfl, rfl, rfl, rfl, rfl, rfl⟩
      · rw [if_neg h3]; exact sameExceptCanCheckOut_refl b
    · rw [if_neg h2]; exact sameExceptCanCheckOut_refl b

/-- C10 witness: reading the checked-in sample booking at its eligible
time persists canCheckOut true while keeping its status. -/
theorem getBookingById_frame_witness :
    (getBookingByIdRoute (1699970400000 + 20 * minuteMs) 7 bkCheckedIn).canCheckOut = true ∧
    (getBookingByIdRoute (1699970400000 + 20 * minuteMs) 7 bkCheckedIn).status =
      bkCheckedIn.status :=
  ⟨(getBookingById_frame (1699970400000 + 20 * minuteMs) 7 bkCheckedIn).1 (by decide)
      (by decide) (by decide) (1699970400000 + 20 * minuteMs) (by decide) (by decide),
   (getBookingById_frame (1699970400000 + 20 * minuteMs) 7 bkCheckedIn).2.2.2.2.2.1⟩

end Zen
